import Mathlib

/-!
Verification of the Music-Therapy-Box core pipeline.

The Python sources are embedded shallowly: pure helpers become Lean
functions over `ℚ` (Python floats are modelled as exact rationals, the
standard idealisation for decimal telemetry values), Python dicts become
insertion-ordered association lists, and stateful methods become explicit
state-passing functions.  The one numpy primitive with no exact rational
counterpart, the square root inside `np.std`, is abstracted as a function
parameter; every theorem below holds for an arbitrary instantiation.
-/

set_option maxRecDepth 4000

/-! ## Python dict model

A Python dict preserves insertion order; assignment to an existing key
overwrites the value in place, assignment to a fresh key appends.
`dictUpdate` models `dict.update`. -/

abbrev Dict := List (String × ℚ)

def dictInsert : Dict → String → ℚ → Dict
  | [], k, v => [(k, v)]
  | p :: rest, k, v => if p.1 = k then (k, v) :: rest else p :: dictInsert rest k v

def dictUpdate (d : Dict) (u : Dict) : Dict :=
  u.foldl (fun acc p => dictInsert acc p.1 p.2) d

/-- `d[k]` as an optional lookup (`k in d` is `(dictGet? d k).isSome`). -/
def dictGet? (d : Dict) (k : String) : Option ℚ :=
  (d.find? (fun p => p.1 = k)).map (·.2)

/-- Python `d.get(k, default)`. -/
def dictGetD (d : Dict) (k : String) (dflt : ℚ) : ℚ :=
  (dictGet? d k).getD dflt

/-! ## Numeric helpers (numpy counterparts) -/

/-- `np.mean` (callers guard non-emptiness; on `[]` we return `0`,
which no guarded call path observes). -/
def npMean (l : List ℚ) : ℚ := l.sum / l.length

def listMin : List ℚ → ℚ
  | [] => 0
  | x :: xs => xs.foldl min x

def listMax : List ℚ → ℚ
  | [] => 0
  | x :: xs => xs.foldl max x

/-- Population variance, `mean((x - mean)^2)`; `np.std` is its square
root, taken through the abstracted `sq` parameter below. -/
def npVariance (l : List ℚ) : ℚ :=
  npMean (l.map (fun x => (x - npMean l) ^ 2))

/-! ## `src/utils/data_collector.py` — data model -/

/-- `SensorReading` dataclass (data_collector.py). -/
structure SensorReading where
  gsr_conductance : Option ℚ
  heart_rate : Option ℚ
  timestamp : ℚ
  valid : Bool
deriving DecidableEq, Repr

/-- A baseline entry is itself a dict (`{'mean': …, 'std': …}`). -/
abbrev BaselineDict := List (String × Dict)

/-- `DataWindow` dataclass (data_collector.py); `start/end/duration`
are not read by the feature extractor and are omitted. -/
structure DataWindow where
  readings : List SensorReading
  baseline : Option BaselineDict
deriving DecidableEq, Repr

/-! ## `src/utils/feature_extractor.py` — FeatureExtractor

`sq` abstracts `np.sqrt` (used only inside `np.std`).  Config values
are inlined: `min_samples = 5`, `trend_window = 10`. -/

namespace FeatureExtractor

/-- `FeatureExtractor._extract_basic_features`. -/
def extract_basic_features (readings : List SensorReading) : Dict :=
  let gsr_values := readings.filterMap (·.gsr_conductance)
  let f1 : Dict :=
    if gsr_values ≠ [] then
      [("gsr_conductance", npMean gsr_values),
       ("gsr_min", listMin gsr_values),
       ("gsr_max", listMax gsr_values),
       ("gsr_range", listMax gsr_values - listMin gsr_values)]
    else
      [("gsr_conductance", 0)]
  let hr_values := readings.filterMap (·.heart_rate)
  let f2 : Dict :=
    if hr_values ≠ [] then
      [("heart_rate", npMean hr_values),
       ("hr_min", listMin hr_values),
       ("hr_max", listMax hr_values),
       ("hr_range", listMax hr_values - listMin hr_values)]
    else
      [("heart_rate", 0)]
  dictUpdate (dictUpdate [] f1) f2

/-- `FeatureExtractor._extract_variability_features`. -/
def extract_variability_features (sq : ℚ → ℚ) (readings : List SensorReading) : Dict :=
  let gsr_values := readings.filterMap (·.gsr_conductance)
  let g : Dict :=
    if gsr_values.length > 1 then
      let gsr_std := sq (npVariance gsr_values)
      let gsr_mean := npMean gsr_values
      [("gsr_variability", if gsr_mean > 0 then gsr_std / gsr_mean else 0),
       ("gsr_std", gsr_std)]
    else
      [("gsr_variability", 0), ("gsr_std", 0)]
  let hr_values := readings.filterMap (·.heart_rate)
  let h : Dict :=
    if hr_values.length > 1 then
      let hr_std := sq (npVariance hr_values)
      let hr_mean := npMean hr_values
      [("hr_variability", if hr_mean > 0 then hr_std / hr_mean else 0),
       ("hr_std", hr_std)]
    else
      [("hr_variability", 0), ("hr_std", 0)]
  g ++ h

/-- `FeatureExtractor._calculate_trend` (least-squares slope).  The
`len < 2` guard is in the source; for `n ≥ 2` the denominator
`n·Σx² − (Σx)²` is nonzero, so the `try/except` never fires. -/
def calculate_trend (values : List ℚ) : ℚ :=
  if values.length < 2 then 0
  else
    let n : ℚ := values.length
    let xs : List ℚ := (List.range values.length).map (fun i => (i : ℚ))
    let sum_x := xs.sum
    let sum_y := values.sum
    let sum_xy := ((xs.zip values).map (fun p => p.1 * p.2)).sum
    let sum_x2 := (xs.map (fun x => x * x)).sum
    (n * sum_xy - sum_x * sum_y) / (n * sum_x2 - sum_x * sum_x)

/-- `FeatureExtractor._extract_trend_features` (`trend_window = 10`). -/
def extract_trend_features (readings : List SensorReading) : Dict :=
  let gsr_values := readings.filterMap (·.gsr_conductance)
  let g : Dict :=
    if gsr_values.length ≥ 10 then [("gsr_trend", calculate_trend gsr_values)]
    else [("gsr_trend", 0)]
  let hr_values := readings.filterMap (·.heart_rate)
  let h : Dict :=
    if hr_values.length ≥ 10 then [("hr_trend", calculate_trend hr_values)]
    else [("hr_trend", 0)]
  g ++ h

/-- `FeatureExtractor._extract_derived_features`.  The source assigns
each derived key exactly once, choosing the value inside `if/else`. -/
def extract_derived_features (features : Dict) : Dict :=
  let gsr_conductance := dictGetD features "gsr_conductance" 0
  let heart_rate := dictGetD features "heart_rate" 0
  let gsr_variability := dictGetD features "gsr_variability" 0
  let hr_variability := dictGetD features "hr_variability" 0
  let gsr_norm := min (gsr_conductance / 50) 1
  let hr_norm := min ((heart_rate - 60) / 40) 1
  let stress_indicator :=
    (gsr_norm * (6/10) + hr_norm * (4/10)) * (1 + gsr_variability + hr_variability)
  let gsr_range := dictGetD features "gsr_range" 0
  let hr_range := dictGetD features "hr_range" 0
  [("stress_indicator", min stress_indicator 1),
   ("variability_ratio", if hr_variability > 0 then gsr_variability / hr_variability else 0),
   ("range_ratio", if hr_range > 0 then gsr_range / hr_range else 0)]

/-- `FeatureExtractor._normalize_features`; a baseline entry is read
with `get('mean', 0.0)` and `get('std', 1.0)`. -/
def normalize_features (features : Dict) (baseline : BaselineDict) : Dict :=
  features.map (fun p =>
    match baseline.find? (fun b => b.1 = p.1) with
    | some b =>
        let baseline_mean := dictGetD b.2 "mean" 0
        let baseline_std := dictGetD b.2 "std" 1
        if baseline_std > 0 then (p.1, (p.2 - baseline_mean) / baseline_std)
        else (p.1, p.2 - baseline_mean)
    | none => p)

/-- `FeatureExtractor.extract_features` (`min_samples = 5`).  Returns
`none` exactly on the source's early-return paths. -/
def extract_features (sq : ℚ → ℚ) (w : DataWindow) : Option Dict :=
  if w.readings = [] then none
  else
    let valid_readings := w.readings.filter (·.valid)
    if valid_readings.length < 5 then none
    else
      let features := extract_basic_features valid_readings
      let features := dictUpdate features (extract_variability_features sq valid_readings)
      let features := dictUpdate features (extract_trend_features valid_readings)
      let features := dictUpdate features (extract_derived_features features)
      let features :=
        match w.baseline with
        | some b => normalize_features features b
        | none => features
      some features

end FeatureExtractor

/-! ## `src/ml/stress_predictor.py` — rule-based StressPredictor

With no model file on disk, `_initialize_predictor` installs the
rule-based fallback model, whose parameters are the literals of
`_create_fallback_model`; they are inlined below.  Python exceptions on
the internal paths (a `KeyError` while reading `'mean'`/`'std'` from the
baseline dict) are modelled with `Except Unit`. -/

namespace MLPredictor

/-- `StressLevel` enum (ml variant). -/
inductive StressLevel where
  | LOW | NORMAL | HIGH | STRESS | RELAXED
deriving DecidableEq, Repr

/-- The `.value` string of each enum member. -/
def StressLevel.value : StressLevel → String
  | .LOW => "low_stress"
  | .NORMAL => "neutral"
  | .HIGH => "high_stress"
  | .STRESS => "stress"
  | .RELAXED => "relaxed"

/-- `PredictionResult` dataclass (ml variant; `timestamp` omitted,
never read by the claims). -/
structure PredictionResult where
  stress_level : StressLevel
  confidence : ℚ
  features : Dict
deriving DecidableEq, Repr

/-- Threshold pair from the fallback model parameters. -/
structure Thresholds where
  low : ℚ
  high : ℚ
deriving DecidableEq, Repr

/-- `gsr_thresholds` of `_create_fallback_model` (μS). -/
def gsr_thresholds : Thresholds := ⟨5, 25⟩

/-- `hr_thresholds` of `_create_fallback_model` (BPM). -/
def hr_thresholds : Thresholds := ⟨60, 100⟩

/-- `StressPredictor._calculate_gsr_score`. -/
def calculate_gsr_score (gsr : ℚ) (thresholds : Thresholds) : ℚ :=
  if gsr ≤ thresholds.low then 0
  else if gsr ≥ thresholds.high then 1
  else (gsr - thresholds.low) / (thresholds.high - thresholds.low)

/-- `StressPredictor._calculate_hr_score` (same body as the GSR one). -/
def calculate_hr_score (hr : ℚ) (thresholds : Thresholds) : ℚ :=
  if hr ≤ thresholds.low then 0
  else if hr ≥ thresholds.high then 1
  else (hr - thresholds.low) / (thresholds.high - thresholds.low)

/-- `StressPredictor._score_to_stress_level`. -/
def score_to_stress_level (score : ℚ) : StressLevel × ℚ :=
  if score ≤ 2/10 then (.RELAXED, 8/10)
  else if score ≤ 4/10 then (.LOW, 7/10)
  else if score ≤ 6/10 then (.NORMAL, 6/10)
  else if score ≤ 8/10 then (.STRESS, 7/10)
  else (.HIGH, 8/10)

/-- Python truthiness of `self.baseline_data` (a dict): `None` and the
empty dict are falsy. -/
def baselineTruthy : Option BaselineDict → Bool
  | none => false
  | some b => b ≠ []

/-- `StressPredictor._normalize_feature`.  The source indexes
`baseline[name]['mean']` and `['std']` directly, so a missing sub-key
raises (`.error`), caught by `_make_prediction`. -/
def normalize_feature (baseline : Option BaselineDict) (value : ℚ)
    (feature_name : String) : Except Unit ℚ :=
  if baselineTruthy baseline = false then .ok value
  else
    match baseline with
    | none => .ok value
    | some b =>
      match b.find? (fun e => e.1 = feature_name) with
      | none => .ok value
      | some e =>
        match (e.2.find? (fun p => p.1 = "mean")).map (·.2),
              (e.2.find? (fun p => p.1 = "std")).map (·.2) with
        | some baseline_mean, some baseline_std =>
            if baseline_std > 0 then .ok ((value - baseline_mean) / baseline_std)
            else .ok (value - baseline_mean)
        | _, _ => .error ()

/-- `StressPredictor._rule_based_prediction` (weights 0.6 / 0.4 from the
fallback model). -/
def rule_based_prediction (baseline : Option BaselineDict) (gsr hr : ℚ)
    (_features : Dict) : Except Unit PredictionResult := do
  let gsr_normalized ←
    if baselineTruthy baseline then normalize_feature baseline gsr "gsr_conductance"
    else .ok gsr
  let hr_normalized ←
    if baselineTruthy baseline then normalize_feature baseline hr "heart_rate"
    else .ok hr
  let gsr_score := calculate_gsr_score gsr_normalized gsr_thresholds
  let hr_score := calculate_hr_score hr_normalized hr_thresholds
  let combined_score := gsr_score * (6/10) + hr_score * (4/10)
  let (stress_level, confidence) := score_to_stress_level combined_score
  .ok { stress_level := stress_level
        confidence := confidence
        features := [("gsr_conductance", gsr), ("heart_rate", hr),
                     ("gsr_score", gsr_score), ("hr_score", hr_score),
                     ("combined_score", combined_score)] }

/-- `StressPredictor._make_prediction`: the fallback model's type is
`rule_based`; on an internal exception the handler returns the neutral
result with confidence 0.5 and the caller's features. -/
def make_prediction (baseline : Option BaselineDict) (gsr hr : ℚ)
    (features : Dict) : PredictionResult :=
  match rule_based_prediction baseline gsr hr features with
  | .ok r => r
  | .error _ => { stress_level := .NORMAL, confidence := 1/2, features := features }

/-- Mutable fields of the ml-variant `StressPredictor` that `predict`
touches (`max_history = 1000`). -/
structure PredictorState where
  ready : Bool
  baseline_data : Option BaselineDict
  prediction_history : List PredictionResult
deriving DecidableEq, Repr

/-- `StressPredictor.predict` (ml variant): returns the label string and
the updated state.  File logging is side-effect only (its exceptions are
caught inside `_log_prediction`) and is not part of the state. -/
def predict (st : PredictorState) (features : Dict) : String × PredictorState :=
  if st.ready = false then ("neutral", st)
  else
    let gsr_conductance := dictGetD features "gsr_conductance" 0
    let heart_rate := dictGetD features "heart_rate" 0
    let prediction_result := make_prediction st.baseline_data gsr_conductance heart_rate features
    let history := st.prediction_history ++ [prediction_result]
    let history := if history.length > 1000 then history.drop 1 else history
    (prediction_result.stress_level.value, { st with prediction_history := history })

end MLPredictor

/-! ## `src/model/stress_predictor.py` — Random-Forest StressPredictor

The pickled scikit-learn forest is an external artefact, not code of
this repository; `rf` abstracts the pair
`model.predict(X)[0], model.predict_proba(X)[0]`, with `.error` for any
exception it raises.  `np.max` of an empty probability row also raises,
which the same top-level handler turns into `"no_stress"`. -/

namespace ModelPredictor

/-- `StressLevel` enum (model variant). -/
inductive StressLevel where
  | NO_STRESS | STRESS
deriving DecidableEq, Repr

/-- `PredictionResult` dataclass (model variant; `timestamp` omitted). -/
structure PredictionResult where
  stress_level : StressLevel
  confidence : ℚ
deriving DecidableEq, Repr

/-- `feature_names` (order fixed, matching training data). -/
def feature_names : List String :=
  ["hr_mean", "hr_std", "hr_min", "hr_max", "hr_range", "hr_skew", "hr_kurtosis",
   "eda_mean", "eda_std", "eda_min", "eda_max", "eda_range", "eda_skew",
   "eda_kurtosis", "eda_slope"]

/-- Mutable fields of the model-variant `StressPredictor` that `predict`
touches.  NOTE: this class has no `max_history`. -/
structure PredictorState where
  ready : Bool
  prediction_history : List PredictionResult
deriving DecidableEq, Repr

/-- `StressPredictor.predict` (model variant), parameterized by the
loaded forest `rf`. -/
def predict (rf : List ℚ → Except Unit (ℤ × List ℚ)) (st : PredictorState)
    (features : Dict) : String × PredictorState :=
  if st.ready = false then ("no_stress", st)
  else
    let feature_vector := feature_names.map (fun n => dictGetD features n 0)
    match rf feature_vector with
    | .error _ => ("no_stress", st)
    | .ok (prediction, probabilities) =>
      match probabilities with
      | [] => ("no_stress", st)
      | p :: ps =>
        let confidence := ps.foldl max p
        let stress_level := if prediction = 1 then "stress" else "no_stress"
        let result : PredictionResult :=
          { stress_level := if prediction = 1 then .STRESS else .NO_STRESS
            confidence := confidence }
        (stress_level, { st with prediction_history := st.prediction_history ++ [result] })

end ModelPredictor

/-! ## String helpers

Python's `str.strip`, `str.split`, `str.startswith` and `str.join` are
modelled over character lists so that every definition reduces. -/

/-- Whitespace stripped by Python `str.strip()` (the ASCII subset the
serial protocol can contain). -/
def isPyWS (c : Char) : Bool :=
  c = ' ' || c = '\t' || c = '\n' || c = '\r' || c = '\x0b' || c = '\x0c'

/-- Python `s.strip()`. -/
def pyStrip (s : String) : String :=
  String.mk (((s.toList.dropWhile isPyWS).reverse.dropWhile isPyWS).reverse)

/-- Python `s.startswith(pat)`. -/
def pyStartsWith (s pat : String) : Bool :=
  pat.toList.isPrefixOf s.toList

/-- Scanner for `pySplitOn`; structural recursion on a fuel that every
call site instantiates with the scanned list's length (each step
consumes at least one character, so the zero-fuel branch is never
reached there). -/
def splitOnAux (pat0 : Char) (patRest : List Char) :
    Nat → List Char → List Char → List (List Char)
  | _, [], acc => [acc.reverse]
  | 0, s, acc => [acc.reverse ++ s]
  | fuel + 1, c :: rest, acc =>
    if (pat0 :: patRest).isPrefixOf (c :: rest) then
      acc.reverse :: splitOnAux pat0 patRest fuel (rest.drop patRest.length) []
    else
      splitOnAux pat0 patRest fuel rest (c :: acc)

/-- Python `s.split(pat)` for non-empty `pat` (non-overlapping,
left-to-right). -/
def pySplitOn (s pat : String) : List String :=
  match pat.toList with
  | [] => [s]
  | p0 :: prest => (splitOnAux p0 prest s.toList.length s.toList []).map String.mk

/-- Python `sep.join(parts)`. -/
def pyJoin (sep : String) : List String → String
  | [] => ""
  | [x] => x
  | x :: y :: rest => x ++ sep ++ pyJoin sep (y :: rest)

/-! ## `src/sensors/gsr_module.py` — GSRSensor

The serial loop is modelled per decoded line; `now` stands for
`time.time()` at the processing instant. -/

/-- Control characters removed by the sensor loop's regex substitution:
`\x00`–`\x08`, `\x0B`, `\x0C`, `\x0E`–`\x1F`, `\x7F`. -/
def isStrippedControl (c : Char) : Bool :=
  c.toNat ≤ 8 || c.toNat = 11 || c.toNat = 12 ||
  (14 ≤ c.toNat && c.toNat ≤ 31) || c.toNat = 127

def stripControls (s : String) : String :=
  String.mk (s.toList.filter (fun c => !isStrippedControl c))

/-- Python `s.count(pat)` for non-empty `pat` (non-overlapping). -/
def countOcc (s pat : String) : ℕ := (pySplitOn s pat).length - 1

/-- The recognized message heads of `_sensor_loop`, in source order. -/
def messageMarkers : List String :=
  ["GSR_CONDUCTANCE:", "BUTTON:", "BASELINE:", "BASELINE_PROGRESS:",
   "CALIBRATION:", "SESSION:", "STATUS:", "LCD:"]

/-- The concatenation-splitting block of `_sensor_loop`: the first
recognized head occurring more than once splits the line; the head is
re-attached to every non-empty later fragment, and the text before the
second occurrence (possibly just the bare head) becomes the first
message. -/
def splitMessages (line : String) : List String :=
  match messageMarkers.find? (fun p => countOcc line p > 1) with
  | some p =>
    match pySplitOn line p with
    | p0 :: p1 :: rest =>
        (p0 ++ p) :: (((p1 :: rest).filter (fun s => s ≠ "")).map (fun s => p ++ s))
    | _ => []
  | none => [line]

/-- Leading match of the regex `[-+]?[0-9]*\.?[0-9]+` (greedy, with the
usual backtracking), used by `_process_data` to cut the numeric head off
the payload. -/
def matchNumeric (s : List Char) : Option (List Char) :=
  let signRest : List Char × List Char :=
    match s with
    | c :: cs => if c = '-' ∨ c = '+' then ([c], cs) else ([], s)
    | [] => ([], [])
  let d1 := signRest.2.takeWhile (·.isDigit)
  let rest1 := signRest.2.dropWhile (·.isDigit)
  match rest1 with
  | '.' :: rest2 =>
    let d2 := rest2.takeWhile (·.isDigit)
    if d2 ≠ [] then some (signRest.1 ++ d1 ++ '.' :: d2)
    else if d1 ≠ [] then some (signRest.1 ++ d1) else none
  | _ => if d1 ≠ [] then some (signRest.1 ++ d1) else none

def digitsToNat (l : List Char) : ℕ :=
  l.foldl (fun a c => 10 * a + (c.toNat - 48)) 0

def decimalValueUnsigned (l : List Char) : ℚ :=
  let ip := l.takeWhile (·.isDigit)
  match l.dropWhile (·.isDigit) with
  | '.' :: fp =>
      (digitsToNat ip : ℚ) + (digitsToNat fp : ℚ) / (10 : ℚ) ^ fp.length
  | _ => (digitsToNat ip : ℚ)

/-- Exact value of a decimal string already shaped by `matchNumeric`:
optional sign, integer digits, optional fraction. -/
def decimalValue (l : List Char) : ℚ :=
  match l with
  | '-' :: rest => -(decimalValueUnsigned rest)
  | '+' :: rest => decimalValueUnsigned rest
  | _ => decimalValueUnsigned l

/-- Python `float()` on the plain decimal forms the device protocol
uses: optional surrounding whitespace, optional sign, digits with an
optional decimal point, at least one digit overall.  Exponent, `inf` and
`nan` spellings are not part of the protocol and are not modelled.
`none` models `ValueError`. -/
def pyFloat (s : String) : Option ℚ :=
  let l := (pyStrip s).toList
  let signRest : ℚ × List Char :=
    match l with
    | c :: cs =>
        if c = '-' then (-1, cs) else if c = '+' then (1, cs) else (1, l)
    | [] => (1, [])
  let ip := signRest.2.takeWhile (·.isDigit)
  match signRest.2.dropWhile (·.isDigit) with
  | [] => if ip ≠ [] then some (signRest.1 * digitsToNat ip) else none
  | '.' :: fp =>
      if fp.all (·.isDigit) ∧ (ip ≠ [] ∨ fp ≠ []) then
        some (signRest.1 * ((digitsToNat ip : ℚ) + (digitsToNat fp : ℚ) / (10 : ℚ) ^ fp.length))
      else none
  | _ => none

/-- `GSRReading` dataclass (gsr_module.py). -/
structure GSRReading where
  conductance : ℚ
  timestamp : ℚ
  valid : Bool
deriving DecidableEq, Repr

/-- `BaselineData` dataclass (gsr_module.py); `source` is `"arduino"`
or `"default"`. -/
structure BaselineData where
  gsr_baseline : ℚ
  hr_baseline : ℚ
  timestamp : ℚ
  source : String
deriving DecidableEq, Repr

namespace GSRSensor

/-- The mutable sensor fields the serial loop and baseline parser
update. -/
structure SensorState where
  latest_reading : Option GSRReading
  readings_history : List GSRReading
  baseline_data : Option BaselineData
deriving DecidableEq, Repr

def emptyState : SensorState := ⟨none, [], none⟩

/-- `deque(maxlen=1000)` append: oldest entries evicted on overflow. -/
def dequeAppend (h : List GSRReading) (r : GSRReading) : List GSRReading :=
  let h2 := h ++ [r]
  if h2.length > 1000 then h2.drop (h2.length - 1000) else h2

/-- `GSRSensor._process_data` (`min_conductance = 0.1`,
`max_conductance = 100.0`). -/
def process_data (now : ℚ) (st : SensorState) (data_line : String) : SensorState :=
  let cleaned_line :=
    String.mk ((pyStrip data_line).toList.filter (fun c => c ≠ '\r' ∧ c ≠ '\n'))
  if pyStartsWith cleaned_line "GSR_CONDUCTANCE:" then
    if cleaned_line.toList.contains ':' then
      let value_part := (cleaned_line.toList.dropWhile (fun c => c ≠ ':')).drop 1
      match matchNumeric value_part with
      | some numeric_part =>
        let conductance := decimalValue numeric_part
        let valid : Bool := decide ((1/10 : ℚ) ≤ conductance ∧ conductance ≤ 100)
        let reading : GSRReading := ⟨conductance, now, valid⟩
        { st with latest_reading := some reading,
                  readings_history := dequeAppend st.readings_history reading }
      | none => st
    else st
  else st

/-- One step of the `for part in parts` loop of
`_parse_and_store_baseline_data`; `.error` is a float `ValueError`,
which aborts the whole parse. -/
def baselinePartStep (acc : Option ℚ × Option ℚ) (part : String) :
    Except Unit (Option ℚ × Option ℚ) :=
  let part := pyStrip part
  if pyStartsWith part "GSR:" then
    match pyFloat (((pySplitOn part ":").drop 1).headD "") with
    | some v => .ok (some v, acc.2)
    | none => .error ()
  else if pyStartsWith part "HR:" then
    match pyFloat (((pySplitOn part ":").drop 1).headD "") with
    | some v => .ok (acc.1, some v)
    | none => .error ()
  else .ok acc

/-- The field scan of `_parse_and_store_baseline_data`: split off the
head at the first colon (`split(":", 1)[1]` raises `IndexError` when
there is no colon, modelled as `.error`), split the payload on commas
and run the `GSR:`/`HR:` sub-field loop. -/
def baselineFields (message : String) : Except Unit (Option ℚ × Option ℚ) :=
  match pySplitOn message ":" with
  | [] => .error ()
  | _ :: dataRest =>
    if dataRest = [] then .error ()
    else
      let data_part := pyJoin ":" dataRest
      let parts := pySplitOn data_part ","
      parts.foldlM baselinePartStep ((none : Option ℚ), (none : Option ℚ))

/-- `GSRSensor._parse_and_store_baseline_data`: store a full record only
when both sub-fields were parsed; any float `ValueError` (or a missing
sub-field) leaves the state untouched. -/
def parse_and_store_baseline_data (now : ℚ) (st : SensorState) (message : String) :
    SensorState :=
  match baselineFields message with
  | .error _ => st
  | .ok (some gsr_value, some hr_value) =>
      { st with baseline_data := some ⟨gsr_value, hr_value, now, "arduino"⟩ }
  | .ok _ => st

/-- `GSRSensor._process_arduino_message`: only `BASELINE:` messages
change sensor state; the rest are logged/forwarded. -/
def process_arduino_message (now : ℚ) (st : SensorState) (data_line : String) :
    SensorState :=
  if pyStartsWith data_line "BASELINE:" then parse_and_store_baseline_data now st data_line
  else st

/-- One iteration of `GSRSensor._sensor_loop` on one decoded line:
control-character cleanup, concatenation splitting, then per-message
dispatch (button events only reach the callback, not sensor state). -/
def processLine (now : ℚ) (st : SensorState) (raw : String) : SensorState :=
  let line := pyStrip (stripControls (pyStrip raw))
  if line = "" then st
  else
    (splitMessages line).foldl
      (fun s msg =>
        let message := pyStrip msg
        if message = "" then s
        else if pyStartsWith message "GSR_CONDUCTANCE:" then process_data now s message
        else if pyStartsWith message "BUTTON:" then s
        else if pyStartsWith message "BASELINE:" ∨ pyStartsWith message "BASELINE_PROGRESS:" ∨
                pyStartsWith message "CALIBRATION:" ∨ pyStartsWith message "SESSION:" ∨
                pyStartsWith message "STATUS:" ∨ pyStartsWith message "LCD:" then
          process_arduino_message now s message
        else s)
      st

/-- `GSRSensor.read_gsr`: the latest reading's conductance when one
exists and is valid. -/
def read_gsr (st : SensorState) : Option ℚ :=
  match st.latest_reading with
  | some r => if r.valid then some r.conductance else none
  | none => none

/-- `GSRSensor.is_connected` (liveness threshold 10 s). -/
def is_connected (now : ℚ) (connected running : Bool) (st : SensorState) : Bool :=
  if connected = false ∨ running = false then false
  else
    match st.latest_reading with
    | some r => decide (now - r.timestamp < 10)
    | none => true

/-- `GSRSensor.get_readings_in_timeframe`. -/
def get_readings_in_timeframe (now : ℚ) (st : SensorState) (duration_seconds : ℚ) :
    List GSRReading :=
  st.readings_history.filter (fun r => now - duration_seconds ≤ r.timestamp)

/-- `GSRSensor.calculate_baseline`: mean conductance of the valid
readings of the last `duration_seconds`, requiring at least 10 of
them. -/
def calculate_baseline (now : ℚ) (st : SensorState) (duration_seconds : ℚ) : Option ℚ :=
  let readings := get_readings_in_timeframe now st duration_seconds
  let valid_readings := (readings.filter (·.valid)).map (·.conductance)
  if valid_readings.length ≥ 10 then some (npMean valid_readings) else none

/-- `GSRSensor.set_default_baseline` (source `"default"`). -/
def set_default_baseline (now : ℚ) (st : SensorState) (gsr_baseline hr_baseline : ℚ) :
    SensorState :=
  { st with baseline_data := some ⟨gsr_baseline, hr_baseline, now, "default"⟩ }

end GSRSensor

/-! ## `src/main.py` — MusicTherapyBox orchestration -/

namespace MainController

/-- The GSR half of `MusicTherapyBox.run_calibration`, at the end of the
Arduino wait loop: when the sensor holds no device-reported baseline the
fixed defaults (GSR 0.0, HR 70.0) are installed via
`set_default_baseline`; otherwise the stored Arduino baseline is kept.
`calculate_baseline` is not consulted anywhere in `run_calibration`. -/
def run_calibration_gsr (now : ℚ) (st : GSRSensor.SensorState) : GSRSensor.SensorState :=
  if st.baseline_data.isSome then st
  else GSRSensor.set_default_baseline now st 0 70

/-- State of `_handle_playback_loop`, with time in whole seconds.  The
loop polls every 0.1 s; second-level granularity preserves every
comparison in the loop because the track durations and the 60 s margin
are whole seconds.  `fires` records the second of every
`_perform_re_evaluation` call (modelled as instantaneous). -/
structure PlaybackState where
  t : ℕ
  re_evaluation_time : Option ℕ
  fires : List ℕ
deriving DecidableEq, Repr

/-- One body iteration of `_handle_playback_loop` with an empty button
queue, for a track of `duration` seconds: arm the timer whenever it is
`None` and the track exceeds 60 s, fire once the armed time is reached
(clearing the timer), then advance time. -/
def playbackStep (duration : ℕ) (s : PlaybackState) : PlaybackState :=
  let s1 :=
    match s.re_evaluation_time with
    | none =>
        if duration > 60 then
          { s with re_evaluation_time := some (s.t + (duration - 60)) }
        else s
    | some _ => s
  let s2 :=
    match s1.re_evaluation_time with
    | some r =>
        if r ≤ s1.t then
          { s1 with fires := s1.fires ++ [s1.t], re_evaluation_time := none }
        else s1
    | none => s1
  { s2 with t := s2.t + 1 }

/-- `_handle_playback_loop` run to natural track end: the body executes
while `is_playing()`, i.e. at seconds `0, …, duration − 1`. -/
def runPlayback (duration : ℕ) : PlaybackState :=
  (List.range duration).foldl (fun s _ => playbackStep duration s) ⟨0, none, []⟩

end MainController

/-! # Dictionary lemmas -/

theorem dictGet?_nil (q : String) : dictGet? [] q = none := rfl

theorem dictGet?_cons (p : String × ℚ) (d : Dict) (q : String) :
    dictGet? (p :: d) q = if p.1 = q then some p.2 else dictGet? d q := by
  rcases eq_or_ne p.1 q with h | h
  · simp [dictGet?, List.find?_cons_of_pos, h]
  · simp only [dictGet?, if_neg h]
    rw [List.find?_cons_of_neg _ (by simp [h])]

theorem dictGet?_insert (d : Dict) (k : String) (v : ℚ) (q : String) :
    dictGet? (dictInsert d k v) q = if q = k then some v else dictGet? d q := by
  induction d with
  | nil =>
    rcases eq_or_ne q k with h | h
    · subst h; simp [dictInsert, dictGet?]
    · simp [dictInsert, dictGet?, Ne.symm h, h]
  | cons p rest ih =>
    rcases eq_or_ne p.1 k with hp | hp
    · rcases eq_or_ne q k with h | h
      · subst h; simp [dictInsert, dictGet?, hp]
      · have hpq : p.1 ≠ q := by rw [hp]; exact Ne.symm h
        simp only [dictInsert, if_pos hp, dictGet?, if_neg h]
        rw [List.find?_cons_of_neg _ (by simp [Ne.symm h]),
            List.find?_cons_of_neg _ (by simp [hpq])]
    · rcases eq_or_ne p.1 q with hq | hq
      · have hqk : q ≠ k := by rw [← hq]; exact hp
        simp [dictInsert, dictGet?, hp, hq, hqk]
      · simp only [dictInsert, if_neg hp]
        simp only [dictGet?] at ih ⊢
        rw [List.find?_cons_of_neg _ (by simp [hq]),
            List.find?_cons_of_neg _ (by simp [hq])]
        exact ih

theorem dictGet?_eq_none_of_not_mem (u : Dict) (q : String) (h : q ∉ u.map (·.1)) :
    dictGet? u q = none := by
  induction u with
  | nil => rfl
  | cons p rest ih =>
    simp only [List.map_cons, List.mem_cons] at h
    push_neg at h
    rw [dictGet?_cons, if_neg (fun hh => h.1 hh.symm)]
    exact ih h.2

theorem dictGet?_update_not_mem (u : Dict) (d : Dict) (q : String)
    (h : q ∉ u.map (·.1)) :
    dictGet? (dictUpdate d u) q = dictGet? d q := by
  induction u generalizing d with
  | nil => rfl
  | cons p rest ih =>
    simp only [List.map_cons, List.mem_cons] at h
    push_neg at h
    simp only [dictUpdate, List.foldl_cons]
    rw [show List.foldl (fun acc p => dictInsert acc p.1 p.2) (dictInsert d p.1 p.2) rest
          = dictUpdate (dictInsert d p.1 p.2) rest from rfl,
        ih _ h.2, dictGet?_insert, if_neg h.1]

theorem dictGet?_update_of_mem (u : Dict) (d : Dict) (q : String) (v : ℚ)
    (hnd : (u.map (·.1)).Nodup) (h : dictGet? u q = some v) :
    dictGet? (dictUpdate d u) q = some v := by
  induction u generalizing d with
  | nil => simp [dictGet?] at h
  | cons p rest ih =>
    simp only [List.map_cons, List.nodup_cons] at hnd
    rw [dictGet?_cons] at h
    rw [show dictUpdate d (p :: rest) = dictUpdate (dictInsert d p.1 p.2) rest from rfl]
    by_cases hp : p.1 = q
    · rw [if_pos hp] at h
      have hq : q ∉ rest.map (·.1) := by rw [← hp]; exact hnd.1
      rw [dictGet?_update_not_mem _ _ _ hq, dictGet?_insert, if_pos hp.symm]
      exact h
    · rw [if_neg hp] at h
      exact ih _ hnd.2 h

/-! # FeatureExtractor layer lemmas -/

theorem derived_keys (f : Dict) :
    (FeatureExtractor.extract_derived_features f).map (·.1) =
      ["stress_indicator", "variability_ratio", "range_ratio"] := rfl

theorem trend_keys (r : List SensorReading) :
    (FeatureExtractor.extract_trend_features r).map (·.1) = ["gsr_trend", "hr_trend"] := by
  simp only [FeatureExtractor.extract_trend_features]
  split_ifs <;> rfl

theorem variability_keys (sq : ℚ → ℚ) (r : List SensorReading) :
    (FeatureExtractor.extract_variability_features sq r).map (·.1) =
      ["gsr_variability", "gsr_std", "hr_variability", "hr_std"] := by
  simp only [FeatureExtractor.extract_variability_features]
  split_ifs <;> rfl

theorem trend_lookup_gsr (r : List SensorReading)
    (hg : r.filterMap (·.gsr_conductance) = []) :
    dictGet? (FeatureExtractor.extract_trend_features r) "gsr_trend" = some 0 := by
  simp [FeatureExtractor.extract_trend_features, hg, dictGet?_cons]

theorem variability_lookup_gsr (sq : ℚ → ℚ) (r : List SensorReading)
    (hg : r.filterMap (·.gsr_conductance) = []) :
    dictGet? (FeatureExtractor.extract_variability_features sq r) "gsr_variability" = some 0 ∧
    dictGet? (FeatureExtractor.extract_variability_features sq r) "gsr_std" = some 0 := by
  simp [FeatureExtractor.extract_variability_features, hg, dictGet?_cons]

theorem basic_lookup_gsr (r : List SensorReading)
    (hg : r.filterMap (·.gsr_conductance) = []) :
    dictGet? (FeatureExtractor.extract_basic_features r) "gsr_conductance" = some 0 ∧
    dictGet? (FeatureExtractor.extract_basic_features r) "gsr_min" = none ∧
    dictGet? (FeatureExtractor.extract_basic_features r) "gsr_max" = none ∧
    dictGet? (FeatureExtractor.extract_basic_features r) "gsr_range" = none := by
  simp only [FeatureExtractor.extract_basic_features, hg, ne_eq, not_true_eq_false,
    if_false]
  split_ifs <;>
    simp [dictUpdate, dictGet?_insert, dictGet?_cons, dictGet?_nil]

/-! # Claim C1 -/

/-- C1, counterexample.  The claim says that on a data window in which no
reading is valid the feature extractor still returns a complete
fixed-length feature vector of zeros and never no result at all; but on
a six-reading window whose readings are all invalid, `extract_features`
hits the `min_samples` guard (0 valid < 5) and returns `None`. -/
theorem c1_counterexample :
    FeatureExtractor.extract_features (fun x => x)
      { readings := List.replicate 6 ⟨some 5, some 70, 0, false⟩, baseline := none } =
      none := by
  rfl

/-- C1, amended.  `extract_features` returns no result (`None`) on any
window with fewer than 5 valid readings — in particular on every
all-invalid window.  When at least 5 valid readings exist but the GSR
channel has zero valid samples (and no baseline is installed), the
returned vector carries the channel's mean, variability, std and trend
as zeros, while the channel's min/max/range keys are omitted, so the
vector is not fixed-length. -/
theorem c1_amended_extract_features (sq : ℚ → ℚ) (w : DataWindow) :
    ((w.readings.filter (·.valid)).length < 5 →
      FeatureExtractor.extract_features sq w = none) ∧
    (∀ F, w.baseline = none →
      5 ≤ (w.readings.filter (·.valid)).length →
      (w.readings.filter (·.valid)).filterMap (·.gsr_conductance) = [] →
      FeatureExtractor.extract_features sq w = some F →
      dictGet? F "gsr_conductance" = some 0 ∧
      dictGet? F "gsr_variability" = some 0 ∧
      dictGet? F "gsr_std" = some 0 ∧
      dictGet? F "gsr_trend" = some 0 ∧
      dictGet? F "gsr_min" = none ∧
      dictGet? F "gsr_max" = none ∧
      dictGet? F "gsr_range" = none) := by
  constructor
  · intro h
    by_cases hre : w.readings = []
    · simp [FeatureExtractor.extract_features, hre]
    · simp [FeatureExtractor.extract_features, hre, h]
  · intro F hb h5 hg hF
    have hre : w.readings ≠ [] := by
      intro h; rw [h] at h5; simp at h5
    simp only [FeatureExtractor.extract_features, if_neg hre, if_neg (not_lt.mpr h5), hb,
      Option.some.injEq] at hF
    subst hF
    set vr := w.readings.filter (·.valid) with hvr
    set B := FeatureExtractor.extract_basic_features vr with hB
    set V := FeatureExtractor.extract_variability_features sq vr with hV
    set T := FeatureExtractor.extract_trend_features vr with hT
    set C := dictUpdate (dictUpdate B V) T with hC
    have stepD : ∀ q : String,
        q ∈ (["gsr_conductance", "gsr_variability", "gsr_std", "gsr_trend",
              "gsr_min", "gsr_max", "gsr_range"] : List String) →
        dictGet? (dictUpdate C (FeatureExtractor.extract_derived_features C)) q =
          dictGet? C q := by
      intro q hq
      refine dictGet?_update_not_mem _ _ _ ?_
      rw [derived_keys]
      fin_cases hq <;> decide
    have stepT : ∀ q : String,
        q ∈ (["gsr_conductance", "gsr_variability", "gsr_std",
              "gsr_min", "gsr_max", "gsr_range"] : List String) →
        dictGet? C q = dictGet? (dictUpdate B V) q := by
      intro q hq
      rw [hC]
      refine dictGet?_update_not_mem _ _ _ ?_
      rw [trend_keys]
      fin_cases hq <;> decide
    have stepTg : dictGet? C "gsr_trend" = some 0 := by
      rw [hC]
      exact dictGet?_update_of_mem _ _ _ _ (by rw [trend_keys]; decide)
        (trend_lookup_gsr vr hg)
    have stepV : ∀ q : String,
        q ∈ (["gsr_conductance", "gsr_min", "gsr_max", "gsr_range"] : List String) →
        dictGet? (dictUpdate B V) q = dictGet? B q := by
      intro q hq
      refine dictGet?_update_not_mem _ _ _ ?_
      rw [variability_keys]
      fin_cases hq <;> decide
    have stepVv : dictGet? (dictUpdate B V) "gsr_variability" = some 0 :=
      dictGet?_update_of_mem _ _ _ _ (by rw [variability_keys]; decide)
        (variability_lookup_gsr sq vr hg).1
    have stepVs : dictGet? (dictUpdate B V) "gsr_std" = some 0 :=
      dictGet?_update_of_mem _ _ _ _ (by rw [variability_keys]; decide)
        (variability_lookup_gsr sq vr hg).2
    have hBL := basic_lookup_gsr vr hg
    refine ⟨?_, ?_, ?_, ?_, ?_, ?_, ?_⟩
    · rw [stepD _ (by decide), stepT _ (by decide), stepV _ (by decide)]
      exact hBL.1
    · rw [stepD _ (by decide), stepT _ (by decide)]
      exact stepVv
    · rw [stepD _ (by decide), stepT _ (by decide)]
      exact stepVs
    · rw [stepD _ (by decide)]
      exact stepTg
    · rw [stepD _ (by decide), stepT _ (by decide), stepV _ (by decide)]
      exact hBL.2.1
    · rw [stepD _ (by decide), stepT _ (by decide), stepV _ (by decide)]
      exact hBL.2.2.1
    · rw [stepD _ (by decide), stepT _ (by decide), stepV _ (by decide)]
      exact hBL.2.2.2

/-! # Claim C2 -/

theorem gsr_score_mono (t : MLPredictor.Thresholds) :
    ∀ a b : ℚ, a ≤ b →
      MLPredictor.calculate_gsr_score a t ≤ MLPredictor.calculate_gsr_score b t := by
  intro a b hab
  unfold MLPredictor.calculate_gsr_score
  split_ifs
  all_goals try linarith
  · apply div_nonneg <;> linarith
  · rw [div_le_one (by linarith)]; linarith
  · rw [div_le_div_iff_of_pos_right (by linarith)]; linarith

theorem hr_score_eq_gsr_score (x : ℚ) (t : MLPredictor.Thresholds) :
    MLPredictor.calculate_hr_score x t = MLPredictor.calculate_gsr_score x t := rfl

/-- C2: each per-channel stress score of the rule-based classifier is
monotonically non-decreasing in its input; it equals 0 at or below the
configured low threshold, 1 at or above the high threshold, and the
linear interpolant (x − low)/(high − low) strictly between them, and the
0.6·GSR + 0.4·HR weighted combination is monotonically non-decreasing in
both inputs.  Stated for arbitrary configured thresholds with
low < high; the fallback model instantiates (5, 25) and (60, 100). -/
theorem c2_rule_scores (gt ht : MLPredictor.Thresholds)
    (hg : gt.low < gt.high) (hh : ht.low < ht.high) :
    (∀ a b : ℚ, a ≤ b →
      MLPredictor.calculate_gsr_score a gt ≤ MLPredictor.calculate_gsr_score b gt) ∧
    (∀ x : ℚ, x ≤ gt.low → MLPredictor.calculate_gsr_score x gt = 0) ∧
    (∀ x : ℚ, gt.high ≤ x → MLPredictor.calculate_gsr_score x gt = 1) ∧
    (∀ x : ℚ, gt.low < x → x < gt.high →
      MLPredictor.calculate_gsr_score x gt = (x - gt.low) / (gt.high - gt.low)) ∧
    (∀ a b : ℚ, a ≤ b →
      MLPredictor.calculate_hr_score a ht ≤ MLPredictor.calculate_hr_score b ht) ∧
    (∀ x : ℚ, x ≤ ht.low → MLPredictor.calculate_hr_score x ht = 0) ∧
    (∀ x : ℚ, ht.high ≤ x → MLPredictor.calculate_hr_score x ht = 1) ∧
    (∀ x : ℚ, ht.low < x → x < ht.high →
      MLPredictor.calculate_hr_score x ht = (x - ht.low) / (ht.high - ht.low)) ∧
    (∀ g1 g2 h1 h2 : ℚ, g1 ≤ g2 → h1 ≤ h2 →
      MLPredictor.calculate_gsr_score g1 gt * (6/10) +
          MLPredictor.calculate_hr_score h1 ht * (4/10) ≤
        MLPredictor.calculate_gsr_score g2 gt * (6/10) +
          MLPredictor.calculate_hr_score h2 ht * (4/10)) := by
  have hlow : ∀ t : MLPredictor.Thresholds, ∀ x : ℚ, x ≤ t.low →
      MLPredictor.calculate_gsr_score x t = 0 := by
    intro t x hx
    unfold MLPredictor.calculate_gsr_score
    rw [if_pos hx]
  have hhigh : ∀ t : MLPredictor.Thresholds, t.low < t.high → ∀ x : ℚ, t.high ≤ x →
      MLPredictor.calculate_gsr_score x t = 1 := by
    intro t ht0 x hx
    unfold MLPredictor.calculate_gsr_score
    rw [if_neg (by linarith), if_pos hx]
  have hmid : ∀ t : MLPredictor.Thresholds, ∀ x : ℚ, t.low < x → x < t.high →
      MLPredictor.calculate_gsr_score x t = (x - t.low) / (t.high - t.low) := by
    intro t x h1 h2
    unfold MLPredictor.calculate_gsr_score
    rw [if_neg (by linarith), if_neg (by linarith)]
  refine ⟨gsr_score_mono gt, hlow gt, hhigh gt hg, hmid gt, ?_, ?_, ?_, ?_, ?_⟩
  · intro a b hab
    rw [hr_score_eq_gsr_score, hr_score_eq_gsr_score]
    exact gsr_score_mono ht a b hab
  · intro x hx; rw [hr_score_eq_gsr_score]; exact hlow ht x hx
  · intro x hx; rw [hr_score_eq_gsr_score]; exact hhigh ht hh x hx
  · intro x h1 h2; rw [hr_score_eq_gsr_score]; exact hmid ht x h1 h2
  · intro g1 g2 h1 h2 hgab hhab
    have t1 := gsr_score_mono gt g1 g2 hgab
    have t2 := gsr_score_mono ht h1 h2 hhab
    rw [hr_score_eq_gsr_score, hr_score_eq_gsr_score]
    linarith

/-- C2 witness: the fallback thresholds (5, 25) and (60, 100) satisfy
low < high, and concrete evaluations of the theorem's conclusions. -/
theorem c2_rule_scores_witness :
    MLPredictor.gsr_thresholds.low < MLPredictor.gsr_thresholds.high ∧
    MLPredictor.hr_thresholds.low < MLPredictor.hr_thresholds.high ∧
    MLPredictor.calculate_gsr_score 5 MLPredictor.gsr_thresholds = 0 ∧
    MLPredictor.calculate_gsr_score 25 MLPredictor.gsr_thresholds = 1 ∧
    MLPredictor.calculate_gsr_score 15 MLPredictor.gsr_thresholds =
      (15 - 5) / (25 - 5) ∧
    MLPredictor.calculate_gsr_score 10 MLPredictor.gsr_thresholds ≤
      MLPredictor.calculate_gsr_score 20 MLPredictor.gsr_thresholds := by
  have h := c2_rule_scores MLPredictor.gsr_thresholds MLPredictor.hr_thresholds
    (by norm_num [MLPredictor.gsr_thresholds]) (by norm_num [MLPredictor.hr_thresholds])
  refine ⟨by norm_num [MLPredictor.gsr_thresholds], by norm_num [MLPredictor.hr_thresholds],
    h.2.1 5 (by norm_num [MLPredictor.gsr_thresholds]),
    h.2.2.1 25 (by norm_num [MLPredictor.gsr_thresholds]), ?_,
    h.1 10 20 (by norm_num)⟩
  have hm := h.2.2.2.1 15 (by norm_num [MLPredictor.gsr_thresholds])
    (by norm_num [MLPredictor.gsr_thresholds])
  simpa [MLPredictor.gsr_thresholds] using hm

/-! # Claim C3 -/

/-- C3, counterexample.  The claim says the rule-based classifier
returns the label Stress ("stress") for GSR 30 and HR 110 with no
baseline; the code's `predict` returns "high_stress" (the HIGH band),
which is a different label. -/
theorem c3_counterexample :
    (MLPredictor.predict { ready := true, baseline_data := none, prediction_history := [] }
        [("gsr_conductance", 30), ("heart_rate", 110)]).1 = "high_stress" ∧
    "high_stress" ≠ "stress" := by
  constructor
  · simp only [MLPredictor.predict, MLPredictor.make_prediction,
      MLPredictor.rule_based_prediction, MLPredictor.baselineTruthy,
      MLPredictor.calculate_gsr_score, MLPredictor.calculate_hr_score,
      MLPredictor.score_to_stress_level, MLPredictor.gsr_thresholds,
      MLPredictor.hr_thresholds, MLPredictor.StressLevel.value, dictGetD, dictGet?,
      Bind.bind, Except.instMonad, Except.bind, List.find?, Option.map, Option.getD,
      String.reduceEq, decide_False, decide_True, if_true, if_false, Bool.false_eq_true,
      reduceCtorEq]
    norm_num
  · decide

/-- C3, amended.  For GSR 30 (above the high GSR threshold 25) and HR
110 (above the high HR threshold 100) with no baseline set, the
rule-based classifier computes combined score 1 and returns the HIGH
band: label "high_stress" with confidence 0.8 (the STRESS band with
label "stress" covers scores in (0.6, 0.8] only). -/
theorem c3_amended_high_band :
    dictGet? (MLPredictor.make_prediction none 30 110
        [("gsr_conductance", 30), ("heart_rate", 110)]).features "combined_score" =
      some 1 ∧
    (MLPredictor.make_prediction none 30 110
        [("gsr_conductance", 30), ("heart_rate", 110)]).stress_level =
      MLPredictor.StressLevel.HIGH ∧
    (MLPredictor.make_prediction none 30 110
        [("gsr_conductance", 30), ("heart_rate", 110)]).confidence = 8/10 := by
  refine ⟨?_, ?_, ?_⟩ <;>
  · simp only [MLPredictor.make_prediction, MLPredictor.rule_based_prediction,
      MLPredictor.baselineTruthy, MLPredictor.calculate_gsr_score,
      MLPredictor.calculate_hr_score, MLPredictor.score_to_stress_level,
      MLPredictor.gsr_thresholds, MLPredictor.hr_thresholds, dictGetD, dictGet?,
      Bind.bind, Except.instMonad, Except.bind, List.find?, Option.map, Option.getD,
      String.reduceEq, decide_False, decide_True, if_true, if_false, Bool.false_eq_true,
      reduceCtorEq]
    norm_num

/-- C1 witness: a one-reading invalid window (fewer than 5 valid
readings) yields `none`, and a five-valid-reading window whose GSR
channel is empty yields the computed map with the GSR zeros present and
the GSR min/max/range keys absent, both obtained from the amended
theorem at concrete inputs. -/
theorem c1_amended_extract_features_witness :
    (((⟨[⟨some 5, some 70, 0, false⟩], none⟩ : DataWindow).readings.filter
        (·.valid)).length < 5 ∧
      FeatureExtractor.extract_features (fun x => x)
        ⟨[⟨some 5, some 70, 0, false⟩], none⟩ = none) ∧
    (5 ≤ (((⟨List.replicate 5 ⟨none, some 70, 0, true⟩, none⟩ : DataWindow)).readings.filter
        (·.valid)).length ∧
      dictGet? [("gsr_conductance", 0), ("heart_rate", 70), ("hr_min", 70), ("hr_max", 70),
          ("hr_range", 0), ("gsr_variability", 0), ("gsr_std", 0), ("hr_variability", 0),
          ("hr_std", 0), ("gsr_trend", 0), ("hr_trend", 0), ("stress_indicator", 1/10),
          ("variability_ratio", 0), ("range_ratio", 0)] "gsr_conductance" = some 0 ∧
      dictGet? [("gsr_conductance", 0), ("heart_rate", 70), ("hr_min", 70), ("hr_max", 70),
          ("hr_range", 0), ("gsr_variability", 0), ("gsr_std", 0), ("hr_variability", 0),
          ("hr_std", 0), ("gsr_trend", 0), ("hr_trend", 0), ("stress_indicator", 1/10),
          ("variability_ratio", 0), ("range_ratio", 0)] "gsr_min" = none ∧
      dictGet? [("gsr_conductance", 0), ("heart_rate", 70), ("hr_min", 70), ("hr_max", 70),
          ("hr_range", 0), ("gsr_variability", 0), ("gsr_std", 0), ("hr_variability", 0),
          ("hr_std", 0), ("gsr_trend", 0), ("hr_trend", 0), ("stress_indicator", 1/10),
          ("variability_ratio", 0), ("range_ratio", 0)] "gsr_range" = none) := by
  have hsome : FeatureExtractor.extract_features (fun x => x)
      ⟨List.replicate 5 ⟨none, some 70, 0, true⟩, none⟩ =
      some [("gsr_conductance", 0), ("heart_rate", 70), ("hr_min", 70), ("hr_max", 70),
          ("hr_range", 0), ("gsr_variability", 0), ("gsr_std", 0), ("hr_variability", 0),
          ("hr_std", 0), ("gsr_trend", 0), ("hr_trend", 0), ("stress_indicator", 1/10),
          ("variability_ratio", 0), ("range_ratio", 0)] := by
    simp only [FeatureExtractor.extract_features, FeatureExtractor.extract_basic_features,
      FeatureExtractor.extract_variability_features, FeatureExtractor.extract_trend_features,
      FeatureExtractor.extract_derived_features, FeatureExtractor.calculate_trend,
      dictUpdate, dictInsert, dictGet?, dictGetD, npMean, npVariance, listMin, listMax,
      List.replicate, List.filter, List.filterMap, List.find?, List.foldl, List.map,
      List.length, List.sum, Option.map, Option.getD, String.reduceEq, decide_False,
      decide_True, if_true, if_false, Bool.false_eq_true, reduceCtorEq, ne_eq]
    norm_num
  have h2 := (c1_amended_extract_features (fun x => x)
      ⟨List.replicate 5 ⟨none, some 70, 0, true⟩, none⟩).2
      [("gsr_conductance", 0), ("heart_rate", 70), ("hr_min", 70), ("hr_max", 70),
        ("hr_range", 0), ("gsr_variability", 0), ("gsr_std", 0), ("hr_variability", 0),
        ("hr_std", 0), ("gsr_trend", 0), ("hr_trend", 0), ("stress_indicator", 1/10),
        ("variability_ratio", 0), ("range_ratio", 0)]
      rfl (by decide) (by decide) hsome
  exact ⟨⟨by decide,
      (c1_amended_extract_features (fun x => x)
        ⟨[⟨some 5, some 70, 0, false⟩], none⟩).1 (by decide)⟩,
    by decide, h2.1, h2.2.2.2.2.1, h2.2.2.2.2.2.2⟩

/-! # Claim C4 -/

unseal Rat.add Rat.mul Rat.sub Rat.inv in
/-- C4: a single received line holding the two concatenated frames
"GSR_CONDUCTANCE:7.34GSR_CONDUCTANCE:8.1" is split with the prefix
re-attached to each fragment (the leading empty fragment keeps only the
bare prefix and is rejected by the numeric parser), and after
processing, exactly the two readings 7.34 (= 367/50) and 8.1 (= 81/10)
have been parsed and appended as independent valid sensor readings, the
second one becoming the latest reading. -/
theorem c4_concatenated_frames :
    splitMessages "GSR_CONDUCTANCE:7.34GSR_CONDUCTANCE:8.1" =
      ["GSR_CONDUCTANCE:", "GSR_CONDUCTANCE:7.34", "GSR_CONDUCTANCE:8.1"] ∧
    GSRSensor.processLine 0 GSRSensor.emptyState
        "GSR_CONDUCTANCE:7.34GSR_CONDUCTANCE:8.1" =
      { latest_reading := some ⟨81/10, 0, true⟩,
        readings_history := [⟨367/50, 0, true⟩, ⟨81/10, 0, true⟩],
        baseline_data := none } := by
  constructor
  · decide
  · decide

/-! # Claim C5 -/

set_option maxRecDepth 40000 in
/-- C5: the claim (and the source's own comment "Prevent multiple
re-evaluations") say exactly one re-evaluation fires for every track
longer than 60 s.  In the loop model, a 180 s track indeed fires
exactly once at 120 s and a 45 s track never fires, exactly as the
claim's examples state; but a
90 s track fires twice (at 30 s and 61 s), because clearing
`re_evaluation_time` to `None` re-arms the scheduling branch on the
next iteration. -/
theorem c5_reevaluation_fire_counts :
    (MainController.runPlayback 180).fires = [120] ∧
    (MainController.runPlayback 45).fires = [] ∧
    (MainController.runPlayback 90).fires = [30, 61] := by
  refine ⟨by decide, by decide, by decide⟩

/-! # Claim C6 -/

unseal Rat.add Rat.mul Rat.sub Rat.inv in
/-- C6, counterexample.  The claim says that with no device-reported
BASELINE: message but at least 10 valid recent readings, calibration
computes the mean as source Computed; but on a state with 10 valid
in-window readings (mean 2, so `calculate_baseline` succeeds with
`some 2`), `run_calibration_gsr` still installs the fixed default
(GSR 0.0, HR 70.0) with source "default" — the computed mean is never
used and no "computed" source exists in the code. -/
theorem c6_counterexample :
    GSRSensor.calculate_baseline 12
        ⟨none, [⟨2, 0, true⟩, ⟨2, 1, true⟩, ⟨2, 2, true⟩, ⟨2, 3, true⟩, ⟨2, 4, true⟩,
                ⟨2, 5, true⟩, ⟨2, 6, true⟩, ⟨2, 7, true⟩, ⟨2, 8, true⟩, ⟨2, 9, true⟩,
                ⟨2, 10, true⟩, ⟨2, 11, true⟩], none⟩ 10 = some 2 ∧
    (MainController.run_calibration_gsr 12
        ⟨none, [⟨2, 0, true⟩, ⟨2, 1, true⟩, ⟨2, 2, true⟩, ⟨2, 3, true⟩, ⟨2, 4, true⟩,
                ⟨2, 5, true⟩, ⟨2, 6, true⟩, ⟨2, 7, true⟩, ⟨2, 8, true⟩, ⟨2, 9, true⟩,
                ⟨2, 10, true⟩, ⟨2, 11, true⟩], none⟩).baseline_data =
      some ⟨0, 70, 12, "default"⟩ := by
  constructor
  · decide
  · decide

/-- C6, amended.  At the end of the calibration wait, if the sensor
holds no device-reported baseline the fixed default record (GSR 0.0,
HR 70.0, source "default") is always installed, regardless of how many
valid recent readings exist; if a device baseline was stored, it is
kept unchanged.  `calculate_baseline` (mean of at least 10 valid recent
readings) exists in the sensor module but calibration never invokes
it. -/
theorem c6_amended_default_on_no_message (now : ℚ) (st : GSRSensor.SensorState) :
    (st.baseline_data = none →
      MainController.run_calibration_gsr now st =
        { st with baseline_data := some ⟨0, 70, now, "default"⟩ }) ∧
    (∀ b, st.baseline_data = some b → MainController.run_calibration_gsr now st = st) := by
  constructor
  · intro h
    simp [MainController.run_calibration_gsr, GSRSensor.set_default_baseline, h]
  · intro b h
    simp [MainController.run_calibration_gsr, h]

/-- C6 witness: the amended theorem applied to the empty sensor state
(no baseline message received). -/
theorem c6_amended_witness :
    GSRSensor.emptyState.baseline_data = none ∧
    MainController.run_calibration_gsr 0 GSRSensor.emptyState =
      { GSRSensor.emptyState with baseline_data := some ⟨0, 70, 0, "default"⟩ } :=
  ⟨rfl, (c6_amended_default_on_no_message 0 GSRSensor.emptyState).1 rfl⟩

/-! # Claim C7 -/

/-- C7: parsing a BASELINE: message is atomic.  A baseline record is
stored exactly when both the GSR and the HR sub-fields of the payload
parse as floats, in which case the full record (source "arduino") is
stored; in every other case — a malformed or missing sub-field, or a
float parse error — the whole message is rejected and the sensor state
(including any previously stored baseline) is left unchanged. -/
theorem c7_baseline_parse_atomic (now : ℚ) (st : GSRSensor.SensorState)
    (message : String) :
    (∀ g h : ℚ, GSRSensor.baselineFields message = Except.ok (some g, some h) →
      GSRSensor.parse_and_store_baseline_data now st message =
        { st with baseline_data := some ⟨g, h, now, "arduino"⟩ }) ∧
    ((∀ g h : ℚ, GSRSensor.baselineFields message ≠ Except.ok (some g, some h)) →
      GSRSensor.parse_and_store_baseline_data now st message = st) := by
  constructor
  · intro g h hgh
    simp [GSRSensor.parse_and_store_baseline_data, hgh]
  · intro hno
    unfold GSRSensor.parse_and_store_baseline_data
    match hf : GSRSensor.baselineFields message with
    | .error e => rfl
    | .ok (some g, some h) => exact absurd hf (hno g h)
    | .ok (some g, none) => rfl
    | .ok (none, some h) => rfl
    | .ok (none, none) => rfl

unseal Rat.add Rat.mul Rat.sub Rat.inv in
/-- C7 witness: a fully well-formed message stores the parsed record,
and a message whose HR sub-field is malformed leaves the state
unchanged, both via the atomicity theorem at concrete inputs. -/
theorem c7_baseline_parse_atomic_witness :
    GSRSensor.parse_and_store_baseline_data 3 GSRSensor.emptyState
        "BASELINE:GSR:123.45,HR:75.2" =
      { GSRSensor.emptyState with
          baseline_data := some ⟨2469/20, 376/5, 3, "arduino"⟩ } ∧
    GSRSensor.parse_and_store_baseline_data 3
        ⟨none, [], some ⟨1, 2, 0, "arduino"⟩⟩ "BASELINE:GSR:123.45,HR:bad" =
      ⟨none, [], some ⟨1, 2, 0, "arduino"⟩⟩ :=
  ⟨(c7_baseline_parse_atomic 3 GSRSensor.emptyState "BASELINE:GSR:123.45,HR:75.2").1
      (2469/20) (376/5) rfl,
   (c7_baseline_parse_atomic 3 ⟨none, [], some ⟨1, 2, 0, "arduino"⟩⟩
      "BASELINE:GSR:123.45,HR:bad").2
      (by
        intro g h hc
        rw [show GSRSensor.baselineFields "BASELINE:GSR:123.45,HR:bad" =
            Except.error () from rfl] at hc
        exact Except.noConfusion hc)⟩

/-! # Claim C8 -/

unseal Rat.sub in
/-- C8, counterexample.  The claim says the read-latest operation
returns none when the most recent reading is older than the 10 s
liveness threshold; but with a valid reading taken at time 0 and the
clock at 100 s, `read_gsr` still returns its value — the staleness
check lives only in `is_connected`, which reports false here. -/
theorem c8_counterexample :
    GSRSensor.read_gsr ⟨some ⟨5, 0, true⟩, [⟨5, 0, true⟩], none⟩ = some 5 ∧
    GSRSensor.is_connected 100 true true ⟨some ⟨5, 0, true⟩, [⟨5, 0, true⟩], none⟩ =
      false := by
  constructor
  · decide
  · decide

/-- C8, amended.  `read_gsr` returns the most recent reading's value
exactly when a latest reading exists and is valid, with no staleness
check: its result is unchanged under any rewrite of the reading's
timestamp; it returns none when no reading was ever received (or the
latest is invalid).  The 10 s liveness threshold is applied only by
`is_connected`. -/
theorem c8_amended_read_gsr (st : GSRSensor.SensorState) :
    (st.latest_reading = none → GSRSensor.read_gsr st = none) ∧
    (∀ r, st.latest_reading = some r →
      GSRSensor.read_gsr st = if r.valid then some r.conductance else none) ∧
    (∀ t2 : ℚ,
      GSRSensor.read_gsr
        { st with latest_reading :=
            st.latest_reading.map (fun r => { r with timestamp := t2 }) } =
      GSRSensor.read_gsr st) ∧
    (∀ (now : ℚ) r, st.latest_reading = some r →
      (GSRSensor.is_connected now true true st = true ↔ now - r.timestamp < 10)) := by
  refine ⟨?_, ?_, ?_, ?_⟩
  · intro h
    simp [GSRSensor.read_gsr, h]
  · intro r h
    simp [GSRSensor.read_gsr, h]
  · intro t2
    match h : st.latest_reading with
    | none => simp [GSRSensor.read_gsr, h]
    | some r => simp [GSRSensor.read_gsr, h]
  · intro now r h
    simp [GSRSensor.is_connected, h]

unseal Rat.sub in
/-- C8 witness: the amended theorem applied to a state holding a valid
reading with timestamp 0 — its value is returned regardless of the
timestamp, and `is_connected` at time 100 reports stale. -/
theorem c8_amended_read_gsr_witness :
    GSRSensor.read_gsr ⟨some ⟨5, 0, true⟩, [], none⟩ =
      (if (⟨5, 0, true⟩ : GSRReading).valid then some (5 : ℚ) else none) ∧
    ¬ (GSRSensor.is_connected 100 true true ⟨some ⟨5, 0, true⟩, [], none⟩ = true ∧
        (100 : ℚ) - 0 < 10) := by
  constructor
  · exact (c8_amended_read_gsr ⟨some ⟨5, 0, true⟩, [], none⟩).2.1 ⟨5, 0, true⟩ rfl
  · intro hc
    have h := ((c8_amended_read_gsr ⟨some ⟨5, 0, true⟩, [], none⟩).2.2.2 100
      ⟨5, 0, true⟩ rfl).mp hc.1
    have : ¬ ((100 : ℚ) - 0 < 10) := by norm_num
    exact this h

/-! # Claim C9 -/

/-- C9, counterexample.  The claim says the prediction history is
bounded by 1000 in both classifier implementations; but the
model-variant `predict` has no `max_history`: one successful prediction
on top of a length-1000 history yields length 1001. -/
theorem c9_counterexample :
    (ModelPredictor.predict (fun _ => Except.ok (1, [9/10]))
        { ready := true,
          prediction_history :=
            List.replicate 1000 ⟨ModelPredictor.StressLevel.STRESS, 1⟩ }
        []).1 = "stress" ∧
    ((ModelPredictor.predict (fun _ => Except.ok (1, [9/10]))
        { ready := true,
          prediction_history :=
            List.replicate 1000 ⟨ModelPredictor.StressLevel.STRESS, 1⟩ }
        []).2.prediction_history).length = 1001 := by
  constructor
  · simp [ModelPredictor.predict]
  · simp [ModelPredictor.predict]

/-- C9, amended.  In the ml variant, `predict` preserves the 1000-entry
bound: every ready call appends exactly one result, the history length
becomes min(old + 1, 1000), and at the cap the oldest entry is evicted.
The model variant appends exactly one result per successful prediction
with no bound at all. -/
theorem c9_amended_history_bounds :
    (∀ (st : MLPredictor.PredictorState) (f : Dict),
      st.prediction_history.length ≤ 1000 →
      ((MLPredictor.predict st f).2.prediction_history.length ≤ 1000 ∧
       (st.ready = true →
         (MLPredictor.predict st f).2.prediction_history.length =
           min (st.prediction_history.length + 1) 1000 ∧
         (st.prediction_history.length = 1000 →
           (MLPredictor.predict st f).2.prediction_history =
             st.prediction_history.drop 1 ++
               [MLPredictor.make_prediction st.baseline_data
                 (dictGetD f "gsr_conductance" 0) (dictGetD f "heart_rate" 0) f])))) ∧
    (∀ (rf : List ℚ → Except Unit (ℤ × List ℚ)) (st : ModelPredictor.PredictorState)
        (f : Dict) (pred : ℤ) (p : ℚ) (ps : List ℚ),
      st.ready = true →
      rf (ModelPredictor.feature_names.map (fun n => dictGetD f n 0)) =
        Except.ok (pred, p :: ps) →
      (ModelPredictor.predict rf st f).2.prediction_history.length =
        st.prediction_history.length + 1) := by
  constructor
  · intro st f hlen
    by_cases hr : st.ready = false
    · simp [MLPredictor.predict, hr]
      omega
    · simp only [Bool.not_eq_false] at hr
      constructor
      · simp only [MLPredictor.predict, hr, Bool.true_eq_false, if_false]
        split_ifs with hcap <;> simp at hcap ⊢ <;> omega
      · intro _
        constructor
        · simp only [MLPredictor.predict, hr, Bool.true_eq_false, if_false]
          split_ifs with hcap <;> simp at hcap ⊢ <;> omega
        · intro h1000
          simp only [MLPredictor.predict, hr, Bool.true_eq_false, if_false]
          rw [if_pos (by simp [h1000])]
          rw [List.drop_append_of_le_length (by omega)]
  · intro rf st f pred p ps hr hrf
    simp [ModelPredictor.predict, hr, hrf]

/-- C9 witness: one ml-variant call on an empty ready state keeps the
bound and reaches length min(0+1, 1000); one successful model-variant
call on an empty ready state reaches length 0 + 1. -/
theorem c9_amended_history_bounds_witness :
    (([] : List MLPredictor.PredictionResult).length ≤ 1000 ∧
      (MLPredictor.predict ⟨true, none, []⟩ []).2.prediction_history.length ≤ 1000 ∧
      (MLPredictor.predict ⟨true, none, []⟩ []).2.prediction_history.length =
        min (([] : List MLPredictor.PredictionResult).length + 1) 1000) ∧
    (ModelPredictor.predict (fun _ => Except.ok (1, [1]))
        ⟨true, []⟩ []).2.prediction_history.length =
      ([] : List ModelPredictor.PredictionResult).length + 1 := by
  have h1 := c9_amended_history_bounds.1 ⟨true, none, []⟩ [] (by decide)
  have h2 := c9_amended_history_bounds.2 (fun _ => Except.ok (1, [1]))
    ⟨true, []⟩ [] 1 1 [] rfl rfl
  exact ⟨⟨by decide, h1.1, (h1.2 rfl).1⟩, h2⟩

/-! # Claim C10 -/

/-- C10: both `predict` entry points are total at their interface: for
every state and feature dictionary they return a plain label string and
a state (never an exception).  When the predictor is not ready, or an
internal step fails — a baseline dict missing its 'mean'/'std' sub-keys
in the ml variant; the loaded model raising, or `np.max` of an empty
probability row, in the model variant — the fixed default label is
returned ("neutral" for the rule-based ml module, "no_stress" for the
model module) and, in the model variant, the state is left unchanged. -/
theorem c10_predict_total_defaults :
    (∀ (st : MLPredictor.PredictorState) (f : Dict),
      (MLPredictor.predict st f).1 ∈
        (["low_stress", "neutral", "high_stress", "stress", "relaxed"] : List String)) ∧
    (∀ (st : MLPredictor.PredictorState) (f : Dict),
      st.ready = false → MLPredictor.predict st f = ("neutral", st)) ∧
    (∀ (st : MLPredictor.PredictorState) (f : Dict) (e : Unit),
      MLPredictor.rule_based_prediction st.baseline_data
          (dictGetD f "gsr_conductance" 0) (dictGetD f "heart_rate" 0) f =
        Except.error e →
      (MLPredictor.predict st f).1 = "neutral") ∧
    (∀ (rf : List ℚ → Except Unit (ℤ × List ℚ)) (st : ModelPredictor.PredictorState)
        (f : Dict),
      (ModelPredictor.predict rf st f).1 ∈ (["stress", "no_stress"] : List String)) ∧
    (∀ (rf : List ℚ → Except Unit (ℤ × List ℚ)) (st : ModelPredictor.PredictorState)
        (f : Dict),
      st.ready = false → ModelPredictor.predict rf st f = ("no_stress", st)) ∧
    (∀ (rf : List ℚ → Except Unit (ℤ × List ℚ)) (st : ModelPredictor.PredictorState)
        (f : Dict) (e : Unit),
      rf (ModelPredictor.feature_names.map (fun n => dictGetD f n 0)) = Except.error e →
      ModelPredictor.predict rf st f = ("no_stress", st)) ∧
    (∀ (rf : List ℚ → Except Unit (ℤ × List ℚ)) (st : ModelPredictor.PredictorState)
        (f : Dict) (pred : ℤ),
      rf (ModelPredictor.feature_names.map (fun n => dictGetD f n 0)) =
        Except.ok (pred, []) →
      ModelPredictor.predict rf st f = ("no_stress", st)) := by
  refine ⟨?_, ?_, ?_, ?_, ?_, ?_, ?_⟩
  · intro st f
    by_cases hr : st.ready = false
    · simp [MLPredictor.predict, hr]
    · simp only [Bool.not_eq_false] at hr
      simp only [MLPredictor.predict, hr, Bool.true_eq_false, if_false]
      cases (MLPredictor.make_prediction st.baseline_data
          (dictGetD f "gsr_conductance" 0) (dictGetD f "heart_rate" 0) f).stress_level <;>
        simp [MLPredictor.StressLevel.value]
  · intro st f hr
    simp [MLPredictor.predict, hr]
  · intro st f e herr
    by_cases hr : st.ready = false
    · simp [MLPredictor.predict, hr]
    · simp only [Bool.not_eq_false] at hr
      simp [MLPredictor.predict, hr, MLPredictor.make_prediction, herr,
        MLPredictor.StressLevel.value]
  · intro rf st f
    by_cases hr : st.ready = false
    · simp [ModelPredictor.predict, hr]
    · simp only [Bool.not_eq_false] at hr
      simp only [ModelPredictor.predict, hr, Bool.true_eq_false, if_false]
      match hrf : rf (ModelPredictor.feature_names.map (fun n => dictGetD f n 0)) with
      | .error e => simp
      | .ok (pred, []) => simp
      | .ok (pred, p :: ps) =>
        by_cases hp : pred = 1 <;> simp [hp]
  · intro rf st f hr
    simp [ModelPredictor.predict, hr]
  · intro rf st f e hrf
    by_cases hr : st.ready = false
    · simp [ModelPredictor.predict, hr]
    · simp only [Bool.not_eq_false] at hr
      simp [ModelPredictor.predict, hr, hrf]
  · intro rf st f pred hrf
    by_cases hr : st.ready = false
    · simp [ModelPredictor.predict, hr]
    · simp only [Bool.not_eq_false] at hr
      simp [ModelPredictor.predict, hr, hrf]

/-- C10 witness: concrete failing inputs — a not-ready ml state; a
baseline entry whose sub-dict lacks 'mean'/'std' (the KeyError path); a
not-ready model state; a raising model; and a model returning an empty
probability row — each yields the module's fixed default. -/
theorem c10_predict_total_defaults_witness :
    MLPredictor.predict ⟨false, none, []⟩ [] = ("neutral", ⟨false, none, []⟩) ∧
    (MLPredictor.predict ⟨true, some [("gsr_conductance", [])], []⟩ []).1 = "neutral" ∧
    ModelPredictor.predict (fun _ => Except.ok (1, [1])) ⟨false, []⟩ [] =
      ("no_stress", ⟨false, []⟩) ∧
    ModelPredictor.predict (fun _ => Except.error ()) ⟨true, []⟩ [] =
      ("no_stress", ⟨true, []⟩) ∧
    ModelPredictor.predict (fun _ => Except.ok (0, [])) ⟨true, []⟩ [] =
      ("no_stress", ⟨true, []⟩) :=
  ⟨c10_predict_total_defaults.2.1 _ [] rfl,
   c10_predict_total_defaults.2.2.1 ⟨true, some [("gsr_conductance", [])], []⟩ [] () rfl,
   c10_predict_total_defaults.2.2.2.2.1 _ _ [] rfl,
   c10_predict_total_defaults.2.2.2.2.2.1 _ _ [] () rfl,
   c10_predict_total_defaults.2.2.2.2.2.2 _ _ [] 0 rfl⟩
